import Mathlib

/-!
# Bookstore API handlers (internal/api/server.go)

A shallow embedding of the HTTP handler layer of the bookstore service:
the two response primitives `respond` / `respondError` and the seven handlers,
together with models of the library calls they make
(`strconv.ParseInt`, `fmt.Sprintf("%.2f", _)`, `pgtype.Numeric.Scan`, `time.Parse`).

The storage layer (`db.Queries`) is an injected collaborator: it is a record of
state-passing functions, so every theorem holds for every storage behaviour.
-/

set_option maxRecDepth 100000

/-! ## HTTP status codes (net/http) -/

namespace http

abbrev StatusOK : Nat := 200
abbrev StatusNoContent : Nat := 204
abbrev StatusBadRequest : Nat := 400
abbrev StatusNotFound : Nat := 404
abbrev StatusInternalServerError : Nat := 500

end http

/-! ## Library models -/

/-- Value of an ASCII decimal digit character. -/
def digitVal (c : Char) : Nat := c.toNat - 48

/-- Base-10 value of a list of digit characters, most significant first. -/
def decimalVal (ds : List Char) : Nat := ds.foldl (fun acc c => acc * 10 + digitVal c) 0

namespace strconv

/-- Go `strconv.ParseUint(s, 10, 64)` without the range check: a non-empty run of
ASCII digits (base 10 is given explicitly, so no base prefix and no underscores). -/
def parseDigits (ds : List Char) : Option Nat :=
  if ds.isEmpty then none
  else if ds.all Char.isDigit then some (decimalVal ds)
  else none

/-- Go `strconv.ParseInt(s, 10, 64)`: optional sign, digits, and the signed 64-bit
range check. `none` stands for a non-nil error. -/
def ParseInt (s : String) : Option Int :=
  match s.toList with
  | [] => none
  | c :: rest =>
    let neg := c == '-'
    let ds := if c == '+' || c == '-' then rest else c :: rest
    match parseDigits ds with
    | none => none
    | some un =>
      if !neg && un ≥ 2 ^ 63 then none
      else if neg && un > 2 ^ 63 then none
      else some (if neg then -(un : Int) else (un : Int))

end strconv

/-- A finite IEEE-754 binary64 value `(-1)^neg * mant * 2^exp`. These are the only
values `encoding/json` decodes into a Go `float64` (JSON has no NaN or infinity
literal and out-of-range numbers are a decode error); `neg` with `mant = 0` is
negative zero. -/
structure Float64 where
  neg : Bool
  mant : Nat
  exp : Int
deriving DecidableEq, Repr

namespace Float64

/-- Go comparison `x < 0` on a float64. -/
def ltZero (x : Float64) : Bool := x.neg && x.mant != 0

/-- The magnitude of `x` times one hundred, rounded to the nearest integer with
ties to even: the digits `strconv` produces for format `f` with precision 2. -/
def roundCents (x : Float64) : Nat :=
  let num : Nat := if 0 ≤ x.exp then x.mant * 2 ^ x.exp.toNat * 100 else x.mant * 100
  let den : Nat := if 0 ≤ x.exp then 1 else 2 ^ (-x.exp).toNat
  let q := num / den
  let r := num % den
  if 2 * r > den then q + 1
  else if 2 * r = den ∧ q % 2 = 1 then q + 1
  else q

end Float64

namespace fmt

/-- Go `fmt.Sprintf("%.2f", x)` for a finite `x`, as a list of characters. -/
def sprintf2fChars (x : Float64) : List Char :=
  let c := x.roundCents
  (if x.neg then ['-'] else []) ++ Nat.toDigits 10 (c / 100)
    ++ ['.', Nat.digitChar (c % 100 / 10), Nat.digitChar (c % 10)]

/-- Go `fmt.Sprintf("%.2f", x)` for a finite `x`. -/
def Sprintf2f (x : Float64) : String := String.mk (sprintf2fChars x)

end fmt

/-- Go `int32`; the handlers never overflow it. -/
abbrev int32 : Type := ℤ

/-- Go `int64`; every value built here is range-checked by `strconv.ParseInt`. -/
abbrev int64 : Type := ℤ

/-- Go `math/big.Int`. -/
abbrev big.Int : Type := ℤ

/-- Go `big.Int.SetString(s, 10)`: an optional sign followed by a non-empty run of
digits, the whole string consumed. -/
def big.SetString (cs : List Char) : Option big.Int :=
  match cs with
  | [] => none
  | c :: rest =>
    let neg := c == '-'
    let ds := if c == '+' || c == '-' then rest else c :: rest
    match strconv.parseDigits ds with
    | none => none
    | some n => some (if neg then -(n : Int) else (n : Int))

namespace pgtype

/-- Go `pgtype.InfinityModifier`. -/
inductive InfinityModifier
  | Finite
  | Infinity
  | NegativeInfinity
deriving DecidableEq, Repr

/-- Go `pgtype.Text`. -/
structure Text where
  String : String
  Valid : Bool
deriving DecidableEq, Repr

/-- Go `pgtype.Numeric`: the value `Int * 10^Exp`; `Int` is `none` for a nil pointer. -/
structure Numeric where
  Int : Option big.Int
  Exp : int32
  NaN : Bool
  InfinityModifier : InfinityModifier
  Valid : Bool
deriving DecidableEq, Repr

/-- The loop of pgx `parseNumericString` for a string without a decimal point, run on
the reversed string: while more than one character is left, the last one is `0` and
the one before it is not `-`, drop the last character and add one to the exponent. -/
def stripZeros : Nat → List Char → Int → List Char × Int
  | 0, rev, e => (rev.reverse, e)
  | fuel + 1, rev, e =>
    match rev with
    | '0' :: c :: rest =>
      if c ≠ '-' then stripZeros fuel (c :: rest) (e + 1) else (rev.reverse, e)
    | _ => (rev.reverse, e)

/-- Go `parseNumericString` of pgx: the digits with the decimal point removed, read by
`big.Int.SetString`, and the exponent: minus the number of fractional digits, or the
number of stripped trailing zeros when there is no point. -/
def parseNumericString (str : List Char) : Option (big.Int × int32) :=
  let idx := str.indexOf '.'
  let (digits, exp) :=
    if idx = str.length then stripZeros str.length str.reverse 0
    else (str.take idx ++ str.drop (idx + 1), -((str.length - idx - 1 : Nat) : Int))
  match big.SetString digits with
  | none => none
  | some n => some (n, exp)

/-- Go `(*pgtype.Numeric).Scan(src)` for a string `src`; `none` stands for a non-nil error. -/
def Numeric.Scan (src : String) : Option Numeric :=
  if src = "NaN" then some ⟨none, 0, true, .Finite, true⟩
  else if src = "Infinity" then some ⟨none, 0, false, .Infinity, true⟩
  else if src = "-Infinity" then some ⟨none, 0, false, .NegativeInfinity, true⟩
  else match parseNumericString src.toList with
    | none => none
    | some (n, exp) => some ⟨some n, exp, false, .Finite, true⟩

end pgtype

namespace time

/-- Go `time.Time` as `time.Parse` returns it for the date-only layout: a calendar
date at midnight UTC. -/
structure Time where
  Year : Nat
  Month : Nat
  Day : Nat
deriving DecidableEq, Repr

/-- Go `daysIn(month, year)`. -/
def daysIn (month year : Nat) : Nat :=
  if month = 2 then
    if year % 4 = 0 ∧ (year % 100 ≠ 0 ∨ year % 400 = 0) then 29 else 28
  else if month = 4 ∨ month = 6 ∨ month = 9 ∨ month = 11 then 30
  else 31

/-- Go `time.Parse("2006-01-02", value)`: exactly four digits, `-`, two digits, `-`,
two digits and nothing after them; the month in 1..12 and the day within the month.
`none` stands for a non-nil error. -/
def Parse (value : String) : Option Time :=
  match value.toList with
  | [y1, y2, y3, y4, s1, m1, m2, s2, d1, d2] =>
    if s1 = '-' ∧ s2 = '-' ∧ [y1, y2, y3, y4, m1, m2, d1, d2].all Char.isDigit then
      let year := decimalVal [y1, y2, y3, y4]
      let month := decimalVal [m1, m2]
      let day := decimalVal [d1, d2]
      if month < 1 ∨ 12 < month then none
      else if day < 1 ∨ daysIn month year < day then none
      else some ⟨year, month, day⟩
    else none
  | _ => none

end time

namespace pgtype

/-- Go `pgtype.Date`. -/
structure Date where
  Time : time.Time
  InfinityModifier : InfinityModifier
  Valid : Bool
deriving DecidableEq, Repr

end pgtype

/-! ## Data model -/

/-- A Go `error` value as the handlers observe it: the text `err.Error()` returns and
whether `errors.Is(err, pgx.ErrNoRows)` holds for it. -/
structure GoError where
  Error : String
  IsErrNoRows : Bool
deriving DecidableEq, Repr

/-- Modelled from the spec: the wire shape `CreateBookRequest` (section 6); the type is
declared outside server.go. The handler reads exactly these six fields. -/
structure CreateBookRequest where
  Title : String
  ISBN : String
  Description : String
  Price : Float64
  AuthorID : int64
  PublishedDate : String
deriving DecidableEq, Repr

/-- Modelled from the spec: the wire shape `UpdateBookRequest` (section 6); the type is
declared outside server.go. `Price` is a pointer (the handler dereferences it), `none`
being the nil pointer a JSON `null` or an absent key decodes to. -/
structure UpdateBookRequest where
  Title : String
  ISBN : String
  Description : String
  Price : Option Float64
  AuthorID : int64
  PublishedDate : String
deriving DecidableEq, Repr

namespace db

/-- Modelled from the spec: the author record of the storage layer (section 3:
identity; the handlers pass it through untouched). -/
structure Author where
  ID : int64
deriving DecidableEq, Repr

/-- Modelled from the spec: the aggregate statistics of one author (section 3: e.g. the
book count; the handlers pass it through untouched). -/
structure AuthorStats where
  AuthorID : int64
  BookCount : int64
deriving DecidableEq, Repr

/-- Modelled from the spec: the book record of the storage layer (section 3; the
handlers pass it through untouched). -/
structure Book where
  ID : int64
  Title : String
  Isbn : String
  Description : pgtype.Text
  Price : pgtype.Numeric
  AuthorID : int64
  PublishedDate : pgtype.Date
deriving DecidableEq, Repr

/-- The fields of `db.CreateBookParams` that `handleCreateBook` fills in. -/
structure CreateBookParams where
  Title : String
  Isbn : String
  Description : pgtype.Text
  Price : pgtype.Numeric
  AuthorID : int64
  PublishedDate : pgtype.Date
deriving DecidableEq, Repr

/-- The fields of `db.UpdateBookParams` that `handleUpdateBook` fills in. -/
structure UpdateBookParams where
  Title : String
  Description : pgtype.Text
  Price : pgtype.Numeric
  PublishedDate : pgtype.Date
  ID : int64
deriving DecidableEq, Repr

/-- One invocation of the storage layer, with its arguments. -/
inductive Call
  | ListAuthors
  | GetAuthorStats (id : int64)
  | ListBooks
  | CreateBook (arg : CreateBookParams)
  | GetBook (id : int64)
  | UpdateBook (arg : UpdateBookParams)
  | DeleteBook (id : int64)
deriving DecidableEq, Repr

/-- The storage layer `*db.Queries` over a store of type `σ`. Each query returns what
the Go method returns, a value together with an error (`none` for nil), and the store
after the call. -/
structure Queries (σ : Type) where
  ListAuthors : σ → (List Author × Option GoError) × σ
  GetAuthorStats : int64 → σ → (AuthorStats × Option GoError) × σ
  ListBooks : σ → (List Book × Option GoError) × σ
  CreateBook : CreateBookParams → σ → (Book × Option GoError) × σ
  GetBook : int64 → σ → (Book × Option GoError) × σ
  UpdateBook : UpdateBookParams → σ → (Book × Option GoError) × σ
  DeleteBook : int64 → σ → Option GoError × σ

end db

/-- A value stored in a `map[string]interface{}` response. -/
inductive MapValue
  | string (s : String)
  | authors (authors : List db.Author)
  | stats (authorStats : db.AuthorStats)
  | books (books : List db.Book)
  | book (book : db.Book)
deriving DecidableEq, Repr

/-- The non-nil `data interface{}` values the handlers pass to `respond`. -/
inductive Data
  | string (s : String)
  | errorResponse (Message : String)
  | map (entries : List (String × MapValue))
deriving DecidableEq, Repr

/-- What one call of `respond` writes: the status passed to `WriteHeader`, the
`Content-Type` header it set, and the value it JSON-encoded to the writer. -/
structure Response where
  status : Nat
  contentType : Option String
  body : Option Data
deriving DecidableEq, Repr

/-- One `s.logger.Error(msg, key, value)` record. -/
structure LogRecord where
  msg : String
  key : String
  value : String
deriving DecidableEq, Repr

/-- Everything a handler acts on while it serves one request: the writes made to the
`http.ResponseWriter` (one entry per `respond`), the logger output, the storage
invocations made so far, the store, and whether the goroutine has panicked. -/
structure World (σ : Type) where
  w : List Response
  log : List LogRecord
  calls : List db.Call
  store : σ
  panicked : Bool

/-- The world at the start of a request. -/
def World.init {σ : Type} (store : σ) : World σ :=
  { w := [], log := [], calls := [], store := store, panicked := false }

/-- The `*http.Request` as the handlers read it: the path values, and the body given by
what `json.NewDecoder(r.Body).Decode(&req)` makes of it, the decoded `β` or `none` when
`Decode` returns an error. -/
structure Request (β : Type) where
  PathValue : String → String
  Body : Option β

/-- The `Server`: the injected storage layer, and the `Validate` methods of the two
request types, which are declared outside server.go. -/
structure Server (σ : Type) where
  queries : db.Queries σ
  validateCreate : CreateBookRequest → Option GoError
  validateUpdate : UpdateBookRequest → Option GoError

/-! ## Response primitives -/

/-- The method `respond`: with nil data only the status is written; otherwise the JSON
content type is set, the status written and the data handed to the JSON encoder of the
writer. (A failure of the encoder is only logged by `respond`; it is not modelled.) -/
def respond {σ : Type} (st : World σ) (status : Nat) (data : Option Data) : World σ :=
  match data with
  | none => { st with w := st.w ++ [⟨status, none, none⟩] }
  | some d => { st with w := st.w ++ [⟨status, some "application/json", some d⟩] }

/-- The method `respondError`: log the message, then `respond` with the error body. -/
def respondError {σ : Type} (st : World σ) (status : Nat) (message : String) : World σ :=
  respond { st with log := st.log ++ [⟨"error", "error_message", message⟩] } status
    (some (Data.errorResponse message))

/-- Record a storage invocation and the store it leaves. -/
def World.called {σ : Type} (st : World σ) (c : db.Call) (store : σ) : World σ :=
  { st with calls := st.calls ++ [c], store := store }

/-- Go `bodyAllowedForStatus` of net/http: a 1xx, 204 or 304 response has no body. -/
def http.bodyAllowedForStatus (status : Nat) : Bool :=
  !((100 ≤ status && status ≤ 199) || status == 204 || status == 304)

/-- The status the client receives: the `http.ResponseWriter` sends the status of the
first `WriteHeader` call and ignores every later one. -/
def World.sentStatus {σ : Type} (st : World σ) : Option Nat :=
  st.w.head?.map Response.status

/-- The JSON documents the client receives in the body, in the order written: every
value encoded to the writer, or nothing when the status sent allows no body. -/
def World.sentBody {σ : Type} (st : World σ) : List Data :=
  match st.sentStatus with
  | none => []
  | some status =>
    if http.bodyAllowedForStatus status then st.w.filterMap Response.body else []

/-! ## Handlers -/

namespace Server

variable {σ β : Type}

/-- The handler `handleListAuthors`. -/
def handleListAuthors (s : Server σ) (_r : Request β) (st : World σ) : World σ :=
  let ((authors, err), store) := s.queries.ListAuthors st.store
  let st := st.called db.Call.ListAuthors store
  match err with
  | some _ => respondError st http.StatusInternalServerError "Failed fetching list of authors"
  | none => respond st http.StatusOK (some (Data.map [("authors", MapValue.authors authors)]))

/-- The handler `handleGetAuthorStats`. The error branch has no `return`: after
`respondError` control continues to the final `respond`. -/
def handleGetAuthorStats (s : Server σ) (r : Request β) (st : World σ) : World σ :=
  match strconv.ParseInt (r.PathValue "id") with
  | none => respondError st http.StatusBadRequest "Invalid author ID"
  | some id =>
    let ((authorStats, err), store) := s.queries.GetAuthorStats id st.store
    let st := st.called (db.Call.GetAuthorStats id) store
    let st :=
      match err with
      | some e => respondError st http.StatusInternalServerError e.Error
      | none => st
    respond st http.StatusOK (some (Data.map [("stats", MapValue.stats authorStats)]))

/-- The handler `handleListBooks`. -/
def handleListBooks (s : Server σ) (_r : Request β) (st : World σ) : World σ :=
  let ((books, err), store) := s.queries.ListBooks st.store
  let st := st.called db.Call.ListBooks store
  match err with
  | some _ => respondError st http.StatusInternalServerError "Failed fetching list of books"
  | none => respond st http.StatusOK (some (Data.map [("books", MapValue.books books)]))

/-- The handler `handleCreateBook`. -/
def handleCreateBook (s : Server σ) (r : Request CreateBookRequest) (st : World σ) : World σ :=
  match r.Body with
  | none => respondError st http.StatusBadRequest "Invalid request format"
  | some req =>
    match s.validateCreate req with
    | some err => respondError st http.StatusBadRequest err.Error
    | none =>
      let description : pgtype.Text := ⟨req.Description, req.Description != ""⟩
      let decimalStr := fmt.Sprintf2f req.Price
      match pgtype.Numeric.Scan decimalStr with
      | none => respondError st http.StatusInternalServerError "Failed to convert price"
      | some price =>
        match time.Parse req.PublishedDate with
        | none => respondError st http.StatusBadRequest "Invalid date format"
        | some date =>
          let publishedDate : pgtype.Date := ⟨date, pgtype.InfinityModifier.Finite, true⟩
          let arg : db.CreateBookParams :=
            { Title := req.Title
              Isbn := req.ISBN
              Description := description
              Price := price
              AuthorID := req.AuthorID
              PublishedDate := publishedDate }
          let ((book, err), store) := s.queries.CreateBook arg st.store
          let st := st.called (db.Call.CreateBook arg) store
          match err with
          | some e => respondError st http.StatusInternalServerError e.Error
          | none =>
            respond st http.StatusOK (some (Data.map
              [("message", MapValue.string "Book created successfully"),
               ("book", MapValue.book book)]))

/-- The handler `handleGetBook`. Only the no-rows branch returns: after the
`respondError` for any other error control continues to the final `respond`. -/
def handleGetBook (s : Server σ) (r : Request β) (st : World σ) : World σ :=
  match strconv.ParseInt (r.PathValue "id") with
  | none => respondError st http.StatusBadRequest "Invalid book ID"
  | some id =>
    let ((book, err), store) := s.queries.GetBook id st.store
    let st := st.called (db.Call.GetBook id) store
    match err with
    | some e =>
      if e.IsErrNoRows then respondError st http.StatusNotFound "Failed to find book"
      else
        let st := respondError st http.StatusInternalServerError e.Error
        respond st http.StatusOK (some (Data.map [("book", MapValue.book book)]))
    | none => respond st http.StatusOK (some (Data.map [("book", MapValue.book book)]))

/-- The handler `handleUpdateBook`. `*req.Price` dereferences the price pointer with no
nil check: on a nil pointer the goroutine panics and nothing more is written. -/
def handleUpdateBook (s : Server σ) (r : Request UpdateBookRequest) (st : World σ) : World σ :=
  match strconv.ParseInt (r.PathValue "id") with
  | none => respondError st http.StatusBadRequest "Invalid book ID"
  | some id =>
    match r.Body with
    | none => respondError st http.StatusBadRequest "Invalid request format"
    | some req =>
      match s.validateUpdate req with
      | some err => respondError st http.StatusBadRequest err.Error
      | none =>
        let description : pgtype.Text := ⟨req.Description, req.Description != ""⟩
        match req.Price with
        | none => { st with panicked := true }
        | some reqPrice =>
          let decimalStr := fmt.Sprintf2f reqPrice
          match pgtype.Numeric.Scan decimalStr with
          | none => respondError st http.StatusInternalServerError "Failed to convert price"
          | some price =>
            match time.Parse req.PublishedDate with
            | none => respondError st http.StatusBadRequest "Invalid date format"
            | some date =>
              let publishedDate : pgtype.Date := ⟨date, pgtype.InfinityModifier.Finite, true⟩
              let arg : db.UpdateBookParams :=
                { Title := req.Title
                  Description := description
                  Price := price
                  PublishedDate := publishedDate
                  ID := id }
              let ((updatedBook, err), store) := s.queries.UpdateBook arg st.store
              let st := st.called (db.Call.UpdateBook arg) store
              match err with
              | some e => respondError st http.StatusInternalServerError e.Error
              | none =>
                respond st http.StatusOK (some (Data.map
                  [("message", MapValue.string "Book updated successfully"),
                   ("book", MapValue.book updatedBook)]))

/-- The handler `handleDeleteBook`. Only the no-rows branch returns: after the
`respondError` for any other error control continues to the final `respond`. -/
def handleDeleteBook (s : Server σ) (r : Request β) (st : World σ) : World σ :=
  match strconv.ParseInt (r.PathValue "id") with
  | none => respondError st http.StatusBadRequest "Invalid book ID"
  | some id =>
    let (err, store) := s.queries.DeleteBook id st.store
    let st := st.called (db.Call.DeleteBook id) store
    match err with
    | some e =>
      if e.IsErrNoRows then respondError st http.StatusNotFound "Book not found"
      else
        let st := respondError st http.StatusInternalServerError e.Error
        respond st http.StatusNoContent (some (Data.string "Book deleted successfully"))
    | none => respond st http.StatusNoContent (some (Data.string "Book deleted successfully"))

end Server

/-! ## Request validation -/

/-- Modelled from the spec: the check that makes `Validate` fail with a
`ValidationError` (section 4.3); the validator is declared outside server.go. -/
inductive ValidationError
  | Title
  | ISBN
  | Price
  | AuthorID
  | PublishedDate
deriving DecidableEq, Repr

/-- Modelled from the spec: `Validate` of `CreateBookRequest` (section 4.3), which is
declared outside server.go: the title and the ISBN must be non-empty, the price must
not be negative, the author ID must not be zero, the published date must be present.
The spec does not give the message texts; `text` supplies them. -/
def CreateBookRequest.Validate (text : ValidationError → String) (req : CreateBookRequest) :
    Option GoError :=
  if req.Title = "" then some ⟨text ValidationError.Title, false⟩
  else if req.ISBN = "" then some ⟨text ValidationError.ISBN, false⟩
  else if req.Price.ltZero then some ⟨text ValidationError.Price, false⟩
  else if req.AuthorID = 0 then some ⟨text ValidationError.AuthorID, false⟩
  else if req.PublishedDate = "" then some ⟨text ValidationError.PublishedDate, false⟩
  else none

/-- Modelled from the spec: `Validate` of `UpdateBookRequest` (sections 3 and 4.3),
which is declared outside server.go: as for `CreateBookRequest`, except that the price
is optional and is checked only when present. -/
def UpdateBookRequest.Validate (text : ValidationError → String) (req : UpdateBookRequest) :
    Option GoError :=
  if req.Title = "" then some ⟨text ValidationError.Title, false⟩
  else if req.ISBN = "" then some ⟨text ValidationError.ISBN, false⟩
  else if (match req.Price with | some p => p.ltZero | none => false) then
    some ⟨text ValidationError.Price, false⟩
  else if req.AuthorID = 0 then some ⟨text ValidationError.AuthorID, false⟩
  else if req.PublishedDate = "" then some ⟨text ValidationError.PublishedDate, false⟩
  else none

/-- The server over storage `q` whose request validation is the one section 4.3
describes, with message texts `text`. -/
def Server.ofSpec {σ : Type} (q : db.Queries σ) (text : ValidationError → String) : Server σ :=
  { queries := q
    validateCreate := CreateBookRequest.Validate text
    validateUpdate := UpdateBookRequest.Validate text }

/-- The payload is one that section 4.3 rejects: empty title, empty ISBN, negative
price or zero author ID. -/
def CreateBookRequest.Rejected (req : CreateBookRequest) : Prop :=
  req.Title = "" ∨ req.ISBN = "" ∨ req.Price.ltZero = true ∨ req.AuthorID = 0

/-- The payload is one that section 4.3 rejects: empty title, empty ISBN, a price that
is present and negative, or zero author ID. -/
def UpdateBookRequest.Rejected (req : UpdateBookRequest) : Prop :=
  req.Title = "" ∨ req.ISBN = "" ∨ (∃ p, req.Price = some p ∧ p.ltZero = true) ∨ req.AuthorID = 0

instance (req : CreateBookRequest) : Decidable req.Rejected := by
  unfold CreateBookRequest.Rejected
  infer_instance

instance (req : UpdateBookRequest) : Decidable req.Rejected :=
  decidable_of_iff
    (req.Title = "" ∨ req.ISBN = "" ∨ req.Price.any Float64.ltZero = true ∨ req.AuthorID = 0)
    (by
      unfold UpdateBookRequest.Rejected
      cases req.Price <;> simp [Option.any])

/-! ## Price conversion -/

/-- The `pgtype.Numeric` holding `x` rounded to two decimals: the integer of hundredths
with exponent `-2`. -/
def priceNumeric (x : Float64) : pgtype.Numeric :=
  { Int := some (if x.neg then -(x.roundCents : Int) else (x.roundCents : Int))
    Exp := -2
    NaN := false
    InfinityModifier := pgtype.InfinityModifier.Finite
    Valid := true }

/-- Left fold computing a decimal value from an accumulator. -/
def decimalFrom (acc : Nat) (ds : List Char) : Nat :=
  ds.foldl (fun a c => a * 10 + digitVal c) acc

/-- The digits `fmt.Sprintf2f` prints after the sign: integer part and the two
fractional digits, without the point. -/
def centsDigits (c : Nat) : List Char :=
  Nat.toDigits 10 (c / 100) ++ [Nat.digitChar (c % 100 / 10), Nat.digitChar (c % 10)]

/-- The sign `fmt.Sprintf2f` prints. -/
def signChars (neg : Bool) : List Char := if neg then ['-'] else []

/-- The insert parameters `handleCreateBook` passes to the storage layer for a
request body whose published date parsed to `date`. -/
def createArg (req : CreateBookRequest) (date : time.Time) : db.CreateBookParams :=
  { Title := req.Title
    Isbn := req.ISBN
    Description := ⟨req.Description, req.Description != ""⟩
    Price := priceNumeric req.Price
    AuthorID := req.AuthorID
    PublishedDate := ⟨date, pgtype.InfinityModifier.Finite, true⟩ }

/-- The update parameters `handleUpdateBook` passes to the storage layer for path ID
`id` and a request body with price `p` whose published date parsed to `date`. -/
def updateArg (id : int64) (req : UpdateBookRequest) (p : Float64) (date : time.Time) :
    db.UpdateBookParams :=
  { Title := req.Title
    Description := ⟨req.Description, req.Description != ""⟩
    Price := priceNumeric p
    PublishedDate := ⟨date, pgtype.InfinityModifier.Finite, true⟩
    ID := id }

/-- What `respondError` writes for a status and a message. -/
def errorResponse (status : Nat) (message : String) : Response :=
  ⟨status, some "application/json", some (Data.errorResponse message)⟩

/-- What `respond` writes for a status and non-nil data. -/
def jsonResponse (status : Nat) (data : Data) : Response :=
  ⟨status, some "application/json", some data⟩

/-! ## Storage doubles and sample requests -/

/-- The error `pgx.ErrNoRows`. -/
def pgx.ErrNoRows : GoError := ⟨"no rows in result set", true⟩

/-- The zero value of `pgtype.Numeric`. -/
def pgtype.Numeric.zero : pgtype.Numeric := ⟨none, 0, false, pgtype.InfinityModifier.Finite, false⟩

/-- The zero value of `db.Book`, returned next to an error. -/
def db.Book.zero : db.Book :=
  { ID := 0, Title := "", Isbn := "", Description := ⟨"", false⟩, Price := pgtype.Numeric.zero,
    AuthorID := 0, PublishedDate := ⟨⟨1, 1, 1⟩, pgtype.InfinityModifier.Finite, false⟩ }

/-- Storage double in which every query fails with the error `e`. -/
def failingQueries (e : GoError) : db.Queries Unit :=
  { ListAuthors := fun u => (([], some e), u)
    GetAuthorStats := fun _ u => ((⟨0, 0⟩, some e), u)
    ListBooks := fun u => (([], some e), u)
    CreateBook := fun _ u => ((db.Book.zero, some e), u)
    GetBook := fun _ u => ((db.Book.zero, some e), u)
    UpdateBook := fun _ u => ((db.Book.zero, some e), u)
    DeleteBook := fun _ u => (some e, u) }

/-- Storage double keeping the books in a list: lookups, updates and deletes of an
absent ID report `pgx.ErrNoRows`, inserts take the next ID. -/
def memQueries : db.Queries (List db.Book) :=
  { ListAuthors := fun bs => (((bs.map (fun b => (⟨b.AuthorID⟩ : db.Author))).eraseDups, none), bs)
    GetAuthorStats := fun id bs =>
      ((⟨id, ((bs.filter (fun b => b.AuthorID == id)).length : Int)⟩, none), bs)
    ListBooks := fun bs => ((bs, none), bs)
    CreateBook := fun arg bs =>
      let book : db.Book :=
        { ID := (bs.length : Int) + 1, Title := arg.Title, Isbn := arg.Isbn,
          Description := arg.Description, Price := arg.Price, AuthorID := arg.AuthorID,
          PublishedDate := arg.PublishedDate }
      ((book, none), bs ++ [book])
    GetBook := fun id bs =>
      match bs.find? (fun b => b.ID == id) with
      | some b => ((b, none), bs)
      | none => ((db.Book.zero, some pgx.ErrNoRows), bs)
    UpdateBook := fun arg bs =>
      match bs.find? (fun b => b.ID == arg.ID) with
      | some b =>
        let book : db.Book :=
          { b with Title := arg.Title, Description := arg.Description, Price := arg.Price,
                   PublishedDate := arg.PublishedDate }
        ((book, none), bs.map (fun c => if c.ID == arg.ID then book else c))
      | none => ((db.Book.zero, some pgx.ErrNoRows), bs)
    DeleteBook := fun id bs =>
      if bs.any (fun b => b.ID == id) then (none, bs.filter (fun b => b.ID != id))
      else (some pgx.ErrNoRows, bs) }

/-- Message texts used in the examples. -/
def sampleText : ValidationError → String
  | ValidationError.Title => "title is required"
  | ValidationError.ISBN => "isbn is required"
  | ValidationError.Price => "price must not be negative"
  | ValidationError.AuthorID => "author_id is required"
  | ValidationError.PublishedDate => "published_date is required"

/-- A request with path value `id` and no decodable body. -/
def getRequest (id : String) : Request Unit :=
  { PathValue := fun name => if name = "id" then id else "", Body := none }

/-- A request with path value `id` whose body decodes to `body`. -/
def bodyRequest {β : Type} (id : String) (body : β) : Request β :=
  { PathValue := fun name => if name = "id" then id else "", Body := some body }

/-- The float64 `12.5`. -/
def price12_5 : Float64 := ⟨false, 25, -1⟩

/-- The body of the create example of the spec (section 8). -/
def duneCreate : CreateBookRequest :=
  { Title := "Dune", ISBN := "9780441013593", Description := "", Price := price12_5,
    AuthorID := 1, PublishedDate := "1965-08-01" }

/-- The same payload as an update body. -/
def duneUpdate : UpdateBookRequest :=
  { Title := "Dune", ISBN := "9780441013593", Description := "", Price := some price12_5,
    AuthorID := 1, PublishedDate := "1965-08-01" }

/-- The book `memQueries` stores for `duneCreate` in an empty store. -/
def duneBook : db.Book :=
  { ID := 1, Title := "Dune", Isbn := "9780441013593", Description := ⟨"", false⟩,
    Price := ⟨some 1250, -2, false, pgtype.InfinityModifier.Finite, true⟩, AuthorID := 1,
    PublishedDate := ⟨⟨1965, 8, 1⟩, pgtype.InfinityModifier.Finite, true⟩ }

/-! ## Theorems -/

/-! ### Price conversion never fails -/

theorem decimalVal_eq (ds : List Char) : decimalVal ds = decimalFrom 0 ds := rfl

theorem digitChar_isDigit (d : Nat) (h : d < 10) : (Nat.digitChar d).isDigit = true := by
  interval_cases d <;> decide

theorem digitVal_digitChar (d : Nat) (h : d < 10) : digitVal (Nat.digitChar d) = d := by
  interval_cases d <;> decide

theorem toDigitsCore_all_isDigit (fuel : Nat) :
    ∀ (n : Nat) (ds : List Char), ds.all Char.isDigit = true →
      (Nat.toDigitsCore 10 fuel n ds).all Char.isDigit = true := by
  induction fuel with
  | zero => intro n ds h; simpa [Nat.toDigitsCore] using h
  | succ fuel ih =>
    intro n ds h
    have hd : (Nat.digitChar (n % 10)).isDigit = true :=
      digitChar_isDigit _ (Nat.mod_lt _ (by decide))
    have hcons : (Nat.digitChar (n % 10) :: ds).all Char.isDigit = true := by
      simp [List.all_cons, hd, h]
    unfold Nat.toDigitsCore
    by_cases h0 : n / 10 = 0
    · simp only [h0, if_true]; exact hcons
    · simp only [h0, if_false]; exact ih _ _ hcons

theorem decimalFrom_toDigitsCore (fuel : Nat) :
    ∀ (n : Nat) (ds : List Char), n < fuel →
      decimalFrom 0 (Nat.toDigitsCore 10 fuel n ds) = decimalFrom n ds := by
  induction fuel with
  | zero => intro n ds h; omega
  | succ fuel ih =>
    intro n ds hn
    have hv : digitVal (Nat.digitChar (n % 10)) = n % 10 :=
      digitVal_digitChar _ (Nat.mod_lt _ (by decide))
    unfold Nat.toDigitsCore
    by_cases h0 : n / 10 = 0
    · simp only [h0, if_true]
      have hlt : n < 10 := by omega
      have hm : n % 10 = n := Nat.mod_eq_of_lt hlt
      rw [hm] at hv
      simp only [decimalFrom, List.foldl_cons, hv, hm, Nat.zero_mul, Nat.zero_add]
    · simp only [h0, if_false]
      rw [ih (n / 10) _ (by omega)]
      simp only [decimalFrom, List.foldl_cons, hv]
      congr 1
      omega

theorem toDigits_all_isDigit (n : Nat) : (Nat.toDigits 10 n).all Char.isDigit = true :=
  toDigitsCore_all_isDigit _ _ _ rfl

theorem decimalFrom_toDigits (n : Nat) : decimalFrom 0 (Nat.toDigits 10 n) = n := by
  have h := decimalFrom_toDigitsCore (n + 1) n [] (Nat.lt_succ_self n)
  simpa [Nat.toDigits, decimalFrom] using h

theorem decimalFrom_append (acc : Nat) (xs ys : List Char) :
    decimalFrom acc (xs ++ ys) = decimalFrom (decimalFrom acc xs) ys := by
  simp [decimalFrom, List.foldl_append]

theorem centsDigits_all_isDigit (c : Nat) : (centsDigits c).all Char.isDigit = true := by
  have h1 := toDigits_all_isDigit (c / 100)
  have h2 : (Nat.digitChar (c % 100 / 10)).isDigit = true := digitChar_isDigit _ (by omega)
  have h3 : (Nat.digitChar (c % 10)).isDigit = true := digitChar_isDigit _ (by omega)
  simp only [centsDigits, List.all_append, List.all_cons, List.all_nil, h1, h2, h3, Bool.and_self]

theorem centsDigits_val (c : Nat) : decimalVal (centsDigits c) = c := by
  have h2 : digitVal (Nat.digitChar (c % 100 / 10)) = c % 100 / 10 :=
    digitVal_digitChar _ (by omega)
  have h3 : digitVal (Nat.digitChar (c % 10)) = c % 10 := digitVal_digitChar _ (by omega)
  rw [decimalVal_eq, centsDigits, decimalFrom_append, decimalFrom_toDigits]
  simp only [decimalFrom, List.foldl_cons, List.foldl_nil, h2, h3]
  omega

theorem parseDigits_centsDigits (c : Nat) : strconv.parseDigits (centsDigits c) = some c := by
  have hne : (centsDigits c).isEmpty = false := by
    simp [centsDigits]
  simp [strconv.parseDigits, hne, centsDigits_all_isDigit, centsDigits_val]

theorem dot_not_mem_of_all_isDigit (ds : List Char) (h : ds.all Char.isDigit = true) :
    '.' ∉ ds := by
  intro hmem
  have := List.all_eq_true.mp h _ hmem
  exact absurd this (by decide)

theorem setString_centsDigits (c : Nat) : big.SetString (centsDigits c) = some (c : Int) := by
  have hp := parseDigits_centsDigits c
  have hall := centsDigits_all_isDigit c
  cases hcs : centsDigits c with
  | nil => simp [centsDigits] at hcs
  | cons a t =>
    rw [hcs] at hp hall
    have ha : a.isDigit = true := by
      simp only [List.all_cons, Bool.and_eq_true] at hall
      exact hall.1
    have h1 : (a == '-') = false := by
      rw [beq_eq_false_iff_ne]; intro h; rw [h] at ha; exact absurd ha (by decide)
    have h2 : (a == '+') = false := by
      rw [beq_eq_false_iff_ne]; intro h; rw [h] at ha; exact absurd ha (by decide)
    simp [big.SetString, h1, h2, hp]

theorem setString_neg_centsDigits (c : Nat) :
    big.SetString ('-' :: centsDigits c) = some (-(c : Int)) := by
  simp [big.SetString, parseDigits_centsDigits]

theorem sprintf2fChars_eq (x : Float64) :
    fmt.sprintf2fChars x =
      (signChars x.neg ++ Nat.toDigits 10 (x.roundCents / 100)) ++
        '.' :: [Nat.digitChar (x.roundCents % 100 / 10), Nat.digitChar (x.roundCents % 10)] := by
  simp [fmt.sprintf2fChars, signChars]

theorem dot_not_mem_intPart (x : Float64) :
    '.' ∉ signChars x.neg ++ Nat.toDigits 10 (x.roundCents / 100) := by
  intro h
  rcases List.mem_append.mp h with h | h
  · cases hx : x.neg <;> simp [signChars, hx] at h
  · exact dot_not_mem_of_all_isDigit _ (toDigits_all_isDigit _) h

theorem parseNumericString_sprintf2f (x : Float64) :
    pgtype.parseNumericString (fmt.sprintf2fChars x) =
      some ((if x.neg then -(x.roundCents : Int) else (x.roundCents : Int)), -2) := by
  have hidx : List.indexOf '.' (fmt.sprintf2fChars x) =
      (signChars x.neg ++ Nat.toDigits 10 (x.roundCents / 100)).length := by
    rw [sprintf2fChars_eq, List.indexOf_append_of_not_mem (dot_not_mem_intPart x)]
    simp
  have hlen : (fmt.sprintf2fChars x).length =
      (signChars x.neg ++ Nat.toDigits 10 (x.roundCents / 100)).length + 3 := by
    rw [sprintf2fChars_eq]; simp; omega
  have htake : List.take (List.indexOf '.' (fmt.sprintf2fChars x)) (fmt.sprintf2fChars x) =
      signChars x.neg ++ Nat.toDigits 10 (x.roundCents / 100) := by
    rw [hidx, sprintf2fChars_eq]; exact List.take_left _ _
  have hdrop : List.drop (List.indexOf '.' (fmt.sprintf2fChars x) + 1) (fmt.sprintf2fChars x) =
      [Nat.digitChar (x.roundCents % 100 / 10), Nat.digitChar (x.roundCents % 10)] := by
    rw [hidx, sprintf2fChars_eq, ← List.drop_drop, List.drop_left]
    rfl
  have hne : ¬ List.indexOf '.' (fmt.sprintf2fChars x) = (fmt.sprintf2fChars x).length := by
    rw [hidx, hlen]; omega
  have hexp : (fmt.sprintf2fChars x).length - List.indexOf '.' (fmt.sprintf2fChars x) - 1 = 2 := by
    rw [hidx, hlen]; omega
  have hdigits : (signChars x.neg ++ Nat.toDigits 10 (x.roundCents / 100)) ++
      [Nat.digitChar (x.roundCents % 100 / 10), Nat.digitChar (x.roundCents % 10)] =
      signChars x.neg ++ centsDigits x.roundCents := by
    simp [centsDigits]
  unfold pgtype.parseNumericString
  simp only [hne, if_false, htake, hdrop, hexp, hdigits]
  cases hx : x.neg
  · simp [signChars, setString_centsDigits]
  · simp [signChars, setString_neg_centsDigits]

/-- Price conversion never fails: scanning the two-decimal rendering of a finite float
yields the numeric of its rounded hundredths. -/
theorem scan_sprintf2f (x : Float64) :
    pgtype.Numeric.Scan (fmt.Sprintf2f x) = some (priceNumeric x) := by
  have hmem : '.' ∈ fmt.sprintf2fChars x := by
    rw [sprintf2fChars_eq]; simp
  have hne : ∀ s : String, '.' ∉ s.data → fmt.Sprintf2f x ≠ s := by
    intro s hs h
    apply hs
    rw [← h]
    exact hmem
  have h1 := hne "NaN" (by decide)
  have h2 := hne "Infinity" (by decide)
  have h3 := hne "-Infinity" (by decide)
  have hl : (fmt.Sprintf2f x).toList = fmt.sprintf2fChars x := rfl
  simp only [pgtype.Numeric.Scan, h1, h2, h3, if_false, hl, parseNumericString_sprintf2f]
  rfl

/-! ### The handlers after their guards -/

section Steps

variable {σ β : Type}

theorem handleCreateBook_converted (s : Server σ) (r : Request CreateBookRequest) (st : World σ)
    (req : CreateBookRequest) (date : time.Time) (hbody : r.Body = some req)
    (hvalid : s.validateCreate req = none) (hdate : time.Parse req.PublishedDate = some date) :
    s.handleCreateBook r st =
      match (s.queries.CreateBook (createArg req date) st.store).1.2 with
      | some e =>
        respondError (st.called (db.Call.CreateBook (createArg req date))
          (s.queries.CreateBook (createArg req date) st.store).2)
          http.StatusInternalServerError e.Error
      | none =>
        respond (st.called (db.Call.CreateBook (createArg req date))
          (s.queries.CreateBook (createArg req date) st.store).2) http.StatusOK
          (some (Data.map [("message", MapValue.string "Book created successfully"),
            ("book", MapValue.book (s.queries.CreateBook (createArg req date) st.store).1.1)])) := by
  simp only [Server.handleCreateBook, hbody, hvalid, scan_sprintf2f, hdate, createArg]

theorem handleUpdateBook_converted (s : Server σ) (r : Request UpdateBookRequest) (st : World σ)
    (id : Int) (req : UpdateBookRequest) (p : Float64) (date : time.Time)
    (hid : strconv.ParseInt (r.PathValue "id") = some id) (hbody : r.Body = some req)
    (hvalid : s.validateUpdate req = none) (hprice : req.Price = some p)
    (hdate : time.Parse req.PublishedDate = some date) :
    s.handleUpdateBook r st =
      match (s.queries.UpdateBook (updateArg id req p date) st.store).1.2 with
      | some e =>
        respondError (st.called (db.Call.UpdateBook (updateArg id req p date))
          (s.queries.UpdateBook (updateArg id req p date) st.store).2)
          http.StatusInternalServerError e.Error
      | none =>
        respond (st.called (db.Call.UpdateBook (updateArg id req p date))
          (s.queries.UpdateBook (updateArg id req p date) st.store).2) http.StatusOK
          (some (Data.map [("message", MapValue.string "Book updated successfully"),
            ("book", MapValue.book (s.queries.UpdateBook (updateArg id req p date) st.store).1.1)])) := by
  simp only [Server.handleUpdateBook, hid, hbody, hvalid, hprice, scan_sprintf2f, hdate, updateArg]

end Steps

/-! ### Validation as section 4.3 describes it -/

theorem validateCreate_of_rejected (text : ValidationError → String) (req : CreateBookRequest)
    (h : req.Rejected) : ∃ e, CreateBookRequest.Validate text req = some e := by
  unfold CreateBookRequest.Validate
  rcases h with h | h | h | h
  · simp [h]
  · by_cases h1 : req.Title = "" <;> simp [h, h1]
  · by_cases h1 : req.Title = "" <;> by_cases h2 : req.ISBN = "" <;> simp [h, h1, h2]
  · by_cases h1 : req.Title = "" <;> by_cases h2 : req.ISBN = "" <;>
      by_cases h3 : req.Price.ltZero = true <;> simp [h, h1, h2, h3]

theorem validateUpdate_of_rejected (text : ValidationError → String) (req : UpdateBookRequest)
    (h : req.Rejected) : ∃ e, UpdateBookRequest.Validate text req = some e := by
  unfold UpdateBookRequest.Validate
  rcases h with h | h | ⟨p, hp, hneg⟩ | h
  · simp [h]
  · by_cases h1 : req.Title = "" <;> simp [h, h1]
  · by_cases h1 : req.Title = "" <;> by_cases h2 : req.ISBN = "" <;> simp [hp, hneg, h1, h2]
  · by_cases h1 : req.Title = "" <;> by_cases h2 : req.ISBN = "" <;>
      by_cases h3 : (match req.Price with | some p => p.ltZero | none => false) = true <;>
      simp [h, h1, h2, h3]

/-! ### How many responses each handler writes -/

section Responses

variable {σ β : Type}

theorem handleListAuthors_one_response (s : Server σ) (r : Request β) (store : σ) :
    (s.handleListAuthors r (World.init store)).w.length = 1 := by
  simp only [Server.handleListAuthors]
  split <;> simp [respondError, respond, World.called, World.init]

theorem handleListBooks_one_response (s : Server σ) (r : Request β) (store : σ) :
    (s.handleListBooks r (World.init store)).w.length = 1 := by
  simp only [Server.handleListBooks]
  split <;> simp [respondError, respond, World.called, World.init]

theorem handleCreateBook_one_response (s : Server σ) (r : Request CreateBookRequest)
    (store : σ) : (s.handleCreateBook r (World.init store)).w.length = 1 := by
  simp only [Server.handleCreateBook, scan_sprintf2f]
  repeat' split
  all_goals simp [respondError, respond, World.called, World.init]

theorem handleUpdateBook_one_response_or_panic (s : Server σ) (r : Request UpdateBookRequest)
    (store : σ) :
    ((s.handleUpdateBook r (World.init store)).panicked = false ∧
      (s.handleUpdateBook r (World.init store)).w.length = 1) ∨
    ((s.handleUpdateBook r (World.init store)).panicked = true ∧
      (s.handleUpdateBook r (World.init store)).w = [] ∧
      ∃ req, r.Body = some req ∧ req.Price = none) := by
  simp only [Server.handleUpdateBook, scan_sprintf2f]
  repeat' split
  all_goals simp_all [respondError, respond, World.called, World.init]

theorem handleUpdateBook_storage_error (s : Server σ) (r : Request UpdateBookRequest)
    (store store' : σ) (id : Int) (req : UpdateBookRequest) (p : Float64) (date : time.Time)
    (book : db.Book) (e : GoError)
    (hid : strconv.ParseInt (r.PathValue "id") = some id) (hbody : r.Body = some req)
    (hvalid : s.validateUpdate req = none) (hprice : req.Price = some p)
    (hdate : time.Parse req.PublishedDate = some date)
    (hq : s.queries.UpdateBook (updateArg id req p date) store = ((book, some e), store')) :
    (s.handleUpdateBook r (World.init store)).w = [errorResponse 500 e.Error] := by
  rw [handleUpdateBook_converted s r _ id req p date hid hbody hvalid hprice hdate]
  simp [World.init, hq, respondError, respond, World.called, errorResponse]

theorem handleUpdateBook_never_404 (s : Server σ) (r : Request UpdateBookRequest) (store : σ) :
    ∀ x ∈ (s.handleUpdateBook r (World.init store)).w, x.status ≠ 404 := by
  simp only [Server.handleUpdateBook, scan_sprintf2f]
  repeat' split
  all_goals simp [respondError, respond, World.called, World.init]

theorem handleGetAuthorStats_never_404 (s : Server σ) (r : Request β) (store : σ) :
    ∀ x ∈ (s.handleGetAuthorStats r (World.init store)).w, x.status ≠ 404 := by
  simp only [Server.handleGetAuthorStats]
  repeat' split
  all_goals simp [respondError, respond, World.called, World.init]

end Responses

/-! ### Claims -/

section Claims

variable {σ β : Type}

/-- C1 (as amended): with validation as section 4.3 defines it, every CreateBook
request, and every UpdateBook request whose path ID is well formed, whose body decodes
to a payload with an empty title, an empty ISBN, a negative price or a zero author ID
gets exactly one response, 400 with the validation failure message, and the storage
layer is invoked zero times. -/
theorem rejected_payload_is_bad_request (q : db.Queries σ) (text : ValidationError → String)
    (store : σ) :
    (∀ (r : Request CreateBookRequest) (req : CreateBookRequest), r.Body = some req →
      req.Rejected →
      ∃ e, CreateBookRequest.Validate text req = some e ∧
        ((Server.ofSpec q text).handleCreateBook r (World.init store)).w =
          [errorResponse 400 e.Error] ∧
        ((Server.ofSpec q text).handleCreateBook r (World.init store)).calls = []) ∧
    (∀ (r : Request UpdateBookRequest) (req : UpdateBookRequest) (id : Int),
      strconv.ParseInt (r.PathValue "id") = some id → r.Body = some req → req.Rejected →
      ∃ e, UpdateBookRequest.Validate text req = some e ∧
        ((Server.ofSpec q text).handleUpdateBook r (World.init store)).w =
          [errorResponse 400 e.Error] ∧
        ((Server.ofSpec q text).handleUpdateBook r (World.init store)).calls = []) := by
  refine ⟨?_, ?_⟩
  · intro r req hbody hrej
    obtain ⟨e, he⟩ := validateCreate_of_rejected text req hrej
    refine ⟨e, he, ?_, ?_⟩ <;>
      simp [Server.handleCreateBook, Server.ofSpec, hbody, he, respondError, respond,
        World.init, errorResponse]
  · intro r req id hid hbody hrej
    obtain ⟨e, he⟩ := validateUpdate_of_rejected text req hrej
    refine ⟨e, he, ?_, ?_⟩ <;>
      simp [Server.handleUpdateBook, Server.ofSpec, hid, hbody, he, respondError, respond,
        World.init, errorResponse]

/-- C1 (as amended) at a create body with an empty ISBN and at an update body for book 1
with a zero author ID. -/
theorem rejected_payload_is_bad_request_witness :
    (CreateBookRequest.Rejected { duneCreate with ISBN := "" } ∧
      ∃ e, CreateBookRequest.Validate sampleText { duneCreate with ISBN := "" } = some e ∧
        ((Server.ofSpec memQueries sampleText).handleCreateBook
          (bodyRequest "" { duneCreate with ISBN := "" }) (World.init [])).w =
            [errorResponse 400 e.Error] ∧
        ((Server.ofSpec memQueries sampleText).handleCreateBook
          (bodyRequest "" { duneCreate with ISBN := "" }) (World.init [])).calls = []) ∧
    (strconv.ParseInt ((bodyRequest "1" { duneUpdate with AuthorID := 0 }).PathValue "id") =
        some 1 ∧
      UpdateBookRequest.Rejected { duneUpdate with AuthorID := 0 } ∧
      ∃ e, UpdateBookRequest.Validate sampleText { duneUpdate with AuthorID := 0 } = some e ∧
        ((Server.ofSpec memQueries sampleText).handleUpdateBook
          (bodyRequest "1" { duneUpdate with AuthorID := 0 }) (World.init [duneBook])).w =
            [errorResponse 400 e.Error] ∧
        ((Server.ofSpec memQueries sampleText).handleUpdateBook
          (bodyRequest "1" { duneUpdate with AuthorID := 0 })
          (World.init [duneBook])).calls = []) :=
  ⟨⟨Or.inr (Or.inl rfl),
      (rejected_payload_is_bad_request memQueries sampleText []).1
        (bodyRequest "" { duneCreate with ISBN := "" }) { duneCreate with ISBN := "" } rfl
        (Or.inr (Or.inl rfl))⟩,
    ⟨by decide, Or.inr (Or.inr (Or.inr rfl)),
      (rejected_payload_is_bad_request memQueries sampleText [duneBook]).2
        (bodyRequest "1" { duneUpdate with AuthorID := 0 }) { duneUpdate with AuthorID := 0 } 1
        (by decide) rfl (Or.inr (Or.inr (Or.inr rfl)))⟩⟩

/-- C1 as stated fails: an UpdateBook request whose body decodes to a payload with an
empty title but whose path ID is "abc" is answered 400 with the message
"Invalid book ID", which is not the validation failure message. -/
theorem update_bad_id_answers_before_validation :
    (bodyRequest "abc" { duneUpdate with Title := "" }).Body =
      some { duneUpdate with Title := "" } ∧
    UpdateBookRequest.Rejected { duneUpdate with Title := "" } ∧
    ((Server.ofSpec memQueries sampleText).handleUpdateBook
      (bodyRequest "abc" { duneUpdate with Title := "" }) (World.init [duneBook])).w =
        [errorResponse 400 "Invalid book ID"] ∧
    ¬ ∃ e, UpdateBookRequest.Validate sampleText { duneUpdate with Title := "" } = some e ∧
      ((Server.ofSpec memQueries sampleText).handleUpdateBook
        (bodyRequest "abc" { duneUpdate with Title := "" }) (World.init [duneBook])).w =
          [errorResponse 400 e.Error] := by
  refine ⟨rfl, Or.inl rfl, by decide, ?_⟩
  rintro ⟨e, he, hw⟩
  have hv : UpdateBookRequest.Validate sampleText { duneUpdate with Title := "" } =
      some ⟨"title is required", false⟩ := by decide
  rw [hv] at he
  have hw2 : ((Server.ofSpec memQueries sampleText).handleUpdateBook
      (bodyRequest "abc" { duneUpdate with Title := "" }) (World.init [duneBook])).w =
        [errorResponse 400 "Invalid book ID"] := by decide
  rw [hw2, ← Option.some.inj he] at hw
  exact absurd hw (by decide)

/-- C2: when the path parameter does not parse as a base-10 signed 64-bit integer, each
of the four ID-taking handlers (GetAuthorStats, GetBook, UpdateBook, DeleteBook) writes
exactly one response, with status 400 and an error body, and makes no storage call,
whatever the request body is and whatever the storage layer would return. -/
theorem malformed_id_is_bad_request (s : Server σ) (store : σ) (r : Request β)
    (ru : Request UpdateBookRequest)
    (h : strconv.ParseInt (r.PathValue "id") = none)
    (hu : strconv.ParseInt (ru.PathValue "id") = none) :
    ((s.handleGetAuthorStats r (World.init store)).w = [errorResponse 400 "Invalid author ID"] ∧
      (s.handleGetAuthorStats r (World.init store)).calls = []) ∧
    ((s.handleGetBook r (World.init store)).w = [errorResponse 400 "Invalid book ID"] ∧
      (s.handleGetBook r (World.init store)).calls = []) ∧
    ((s.handleUpdateBook ru (World.init store)).w = [errorResponse 400 "Invalid book ID"] ∧
      (s.handleUpdateBook ru (World.init store)).calls = []) ∧
    ((s.handleDeleteBook r (World.init store)).w = [errorResponse 400 "Invalid book ID"] ∧
      (s.handleDeleteBook r (World.init store)).calls = []) := by
  simp [Server.handleGetAuthorStats, Server.handleGetBook, Server.handleUpdateBook,
    Server.handleDeleteBook, h, hu, respondError, respond, World.init, errorResponse]

/-- C2 at the path values "12a" and "9223372036854775808" (one past the largest int64),
over a store that holds a book. -/
theorem malformed_id_is_bad_request_witness :
    strconv.ParseInt ((getRequest "12a").PathValue "id") = none ∧
    strconv.ParseInt ((bodyRequest "9223372036854775808" duneUpdate).PathValue "id") = none ∧
    ((Server.ofSpec memQueries sampleText).handleGetBook (getRequest "12a")
      (World.init [duneBook])).w = [errorResponse 400 "Invalid book ID"] ∧
    ((Server.ofSpec memQueries sampleText).handleUpdateBook
      (bodyRequest "9223372036854775808" duneUpdate) (World.init [duneBook])).calls = [] :=
  have h := malformed_id_is_bad_request (Server.ofSpec memQueries sampleText) [duneBook]
    (getRequest "12a") (bodyRequest "9223372036854775808" duneUpdate) (by decide) (by decide)
  ⟨by decide, by decide, h.2.1.1, h.2.2.1.2⟩

/-- C3: for a well-formed ID for which the storage layer reports the no-rows condition,
GetBook writes exactly one response, 404 with the error body "Failed to find book", and
DeleteBook writes exactly one response, 404 with the error body "Book not found"; no
response has status 200 or 204. A DeleteBook repeated on the store the first one left,
where the ID is still reported absent, answers 404 again. -/
theorem no_rows_is_not_found (s : Server σ) (store : σ) (r : Request β) (id : Int)
    (hid : strconv.ParseInt (r.PathValue "id") = some id) :
    (∀ book e store', s.queries.GetBook id store = ((book, some e), store') →
      e.IsErrNoRows = true →
      (s.handleGetBook r (World.init store)).w = [errorResponse 404 "Failed to find book"] ∧
      ∀ x ∈ (s.handleGetBook r (World.init store)).w, x.status ≠ 200 ∧ x.status ≠ 204) ∧
    (∀ e store', s.queries.DeleteBook id store = (some e, store') → e.IsErrNoRows = true →
      (s.handleDeleteBook r (World.init store)).w = [errorResponse 404 "Book not found"] ∧
      (∀ x ∈ (s.handleDeleteBook r (World.init store)).w, x.status ≠ 200 ∧ x.status ≠ 204) ∧
      (s.handleDeleteBook r (World.init store)).store = store' ∧
      ∀ e2 store2, s.queries.DeleteBook id store' = (some e2, store2) → e2.IsErrNoRows = true →
        (s.handleDeleteBook r (World.init store')).w = [errorResponse 404 "Book not found"]) := by
  refine ⟨?_, ?_⟩
  · intro book e store' hq he
    simp [Server.handleGetBook, hid, hq, he, respondError, respond, World.init, World.called,
      errorResponse]
  · intro e store' hq he
    refine ⟨?_, ?_, ?_, ?_⟩
    · simp [Server.handleDeleteBook, hid, hq, he, respondError, respond, World.init,
        World.called, errorResponse]
    · simp [Server.handleDeleteBook, hid, hq, he, respondError, respond, World.init,
        World.called]
    · simp [Server.handleDeleteBook, hid, hq, he, respondError, respond, World.init,
        World.called]
    · intro e2 store2 hq2 he2
      simp [Server.handleDeleteBook, hid, hq2, he2, respondError, respond, World.init,
        World.called, errorResponse]

/-- C3 at the absent ID 999999 of the spec's example: GetBook answers 404, and so do a
DeleteBook and the DeleteBook that repeats it. -/
theorem no_rows_is_not_found_witness :
    strconv.ParseInt ((getRequest "999999").PathValue "id") = some 999999 ∧
    memQueries.GetBook 999999 [duneBook] = ((db.Book.zero, some pgx.ErrNoRows), [duneBook]) ∧
    memQueries.DeleteBook 999999 [duneBook] = (some pgx.ErrNoRows, [duneBook]) ∧
    ((Server.ofSpec memQueries sampleText).handleGetBook (getRequest "999999")
      (World.init [duneBook])).w = [errorResponse 404 "Failed to find book"] ∧
    ((Server.ofSpec memQueries sampleText).handleDeleteBook (getRequest "999999")
      (World.init [duneBook])).w = [errorResponse 404 "Book not found"] ∧
    ((Server.ofSpec memQueries sampleText).handleDeleteBook (getRequest "999999")
      (World.init ((Server.ofSpec memQueries sampleText).handleDeleteBook (getRequest "999999")
        (World.init [duneBook])).store)).w = [errorResponse 404 "Book not found"] :=
  have h := no_rows_is_not_found (Server.ofSpec memQueries sampleText) [duneBook]
    (getRequest "999999") 999999 (by decide)
  have hd := h.2 pgx.ErrNoRows [duneBook] (by decide) (by decide)
  ⟨by decide, by decide, by decide,
    (h.1 db.Book.zero pgx.ErrNoRows [duneBook] (by decide) (by decide)).1, hd.1,
    hd.2.2.1 ▸ hd.2.2.2 pgx.ErrNoRows [duneBook] (by decide) (by decide)⟩

/-- C4, on the failing inputs: for a well-formed ID, when the storage call returns an
error (any error for GetAuthorStats, any error other than no-rows for GetBook and
DeleteBook) the handler writes two responses, not one: the 500 error response and then,
because the error branch does not return, the success response. -/
theorem storage_error_writes_two_responses (s : Server σ) (store : σ) (r : Request β)
    (id : Int) (hid : strconv.ParseInt (r.PathValue "id") = some id) :
    (∀ stats e store', s.queries.GetAuthorStats id store = ((stats, some e), store') →
      (s.handleGetAuthorStats r (World.init store)).w =
        [errorResponse 500 e.Error,
          jsonResponse 200 (Data.map [("stats", MapValue.stats stats)])]) ∧
    (∀ book e store', s.queries.GetBook id store = ((book, some e), store') →
      e.IsErrNoRows = false →
      (s.handleGetBook r (World.init store)).w =
        [errorResponse 500 e.Error, jsonResponse 200 (Data.map [("book", MapValue.book book)])]) ∧
    (∀ e store', s.queries.DeleteBook id store = (some e, store') → e.IsErrNoRows = false →
      (s.handleDeleteBook r (World.init store)).w =
        [errorResponse 500 e.Error,
          jsonResponse 204 (Data.string "Book deleted successfully")]) := by
  refine ⟨?_, ?_, ?_⟩
  · intro stats e store' hq
    simp [Server.handleGetAuthorStats, hid, hq, respondError, respond, World.init,
      World.called, errorResponse, jsonResponse]
  · intro book e store' hq he
    simp [Server.handleGetBook, hid, hq, he, respondError, respond, World.init, World.called,
      errorResponse, jsonResponse]
  · intro e store' hq he
    simp [Server.handleDeleteBook, hid, hq, he, respondError, respond, World.init,
      World.called, errorResponse, jsonResponse]

/-- C4 at ID 1 over a storage layer that fails with "connection refused": each of the
three handlers writes two responses. -/
theorem storage_error_writes_two_responses_witness :
    strconv.ParseInt ((getRequest "1").PathValue "id") = some 1 ∧
    ((Server.ofSpec (failingQueries ⟨"connection refused", false⟩) sampleText).handleGetAuthorStats
      (getRequest "1") (World.init ())).w =
      [errorResponse 500 "connection refused",
        jsonResponse 200 (Data.map [("stats", MapValue.stats ⟨0, 0⟩)])] ∧
    ((Server.ofSpec (failingQueries ⟨"connection refused", false⟩) sampleText).handleGetBook
      (getRequest "1") (World.init ())).w.length = 2 ∧
    ((Server.ofSpec (failingQueries ⟨"connection refused", false⟩) sampleText).handleDeleteBook
      (getRequest "1") (World.init ())).w.length = 2 :=
  have h := storage_error_writes_two_responses
    (Server.ofSpec (failingQueries ⟨"connection refused", false⟩) sampleText) ()
    (getRequest "1") 1 (by decide)
  ⟨by decide, h.1 ⟨0, 0⟩ ⟨"connection refused", false⟩ () rfl,
    congrArg List.length (h.2.1 db.Book.zero ⟨"connection refused", false⟩ () rfl rfl),
    congrArg List.length (h.2.2 ⟨"connection refused", false⟩ () rfl rfl)⟩

/-- C5: for a CreateBook request that decodes, passes validation and has a valid
YYYY-MM-DD published date, the handler makes exactly one storage call, an insert whose
parameters carry the title, ISBN and author ID of the request unchanged, the description
as optional text (absent for the empty string, present with that value otherwise), the
price obtained by scanning the two-decimal rendering of the request price, and the
parsed date marked present; when the insert succeeds the only response is 200 with the
message "Book created successfully" and the book exactly as storage returned it. -/
theorem create_book_inserts_converted_fields (s : Server σ) (store : σ)
    (r : Request CreateBookRequest) (req : CreateBookRequest) (date : time.Time)
    (hbody : r.Body = some req) (hvalid : s.validateCreate req = none)
    (hdate : time.Parse req.PublishedDate = some date) :
    ∃ arg : db.CreateBookParams,
      (s.handleCreateBook r (World.init store)).calls = [db.Call.CreateBook arg] ∧
      arg.Title = req.Title ∧ arg.Isbn = req.ISBN ∧ arg.AuthorID = req.AuthorID ∧
      (req.Description = "" → arg.Description = ⟨"", false⟩) ∧
      (req.Description ≠ "" → arg.Description = ⟨req.Description, true⟩) ∧
      pgtype.Numeric.Scan (fmt.Sprintf2f req.Price) = some arg.Price ∧
      arg.Price = priceNumeric req.Price ∧
      arg.PublishedDate = ⟨date, pgtype.InfinityModifier.Finite, true⟩ ∧
      ∀ book store', s.queries.CreateBook arg store = ((book, none), store') →
        (s.handleCreateBook r (World.init store)).w =
          [jsonResponse 200 (Data.map [("message", MapValue.string "Book created successfully"),
            ("book", MapValue.book book)])] := by
  refine ⟨createArg req date, ?_, rfl, rfl, rfl, ?_, ?_, scan_sprintf2f _, rfl, rfl, ?_⟩
  · rw [handleCreateBook_converted s r _ req date hbody hvalid hdate]
    cases (s.queries.CreateBook (createArg req date) (World.init store).store).1.2 <;>
      simp [respondError, respond, World.called, World.init]
  · intro h; simp [createArg, h]
  · intro h; simp [createArg, h]
  · intro book store' hq
    rw [handleCreateBook_converted s r _ req date hbody hvalid hdate]
    simp [World.init, hq, respond, World.called, jsonResponse]

/-- C5 at the create example of the spec (Dune, price 12.5, published 1965-08-01) on an
empty store: one insert, with price 1250e-2, and the 200 response with the stored book. -/
theorem create_book_inserts_converted_fields_witness :
    (bodyRequest "" duneCreate).Body = some duneCreate ∧
    CreateBookRequest.Validate sampleText duneCreate = none ∧
    time.Parse duneCreate.PublishedDate = some ⟨1965, 8, 1⟩ ∧
    ∃ arg : db.CreateBookParams,
      ((Server.ofSpec memQueries sampleText).handleCreateBook (bodyRequest "" duneCreate)
        (World.init [])).calls = [db.Call.CreateBook arg] ∧
      arg.Price = ⟨some 1250, -2, false, pgtype.InfinityModifier.Finite, true⟩ ∧
      ((Server.ofSpec memQueries sampleText).handleCreateBook (bodyRequest "" duneCreate)
        (World.init [])).w =
          [jsonResponse 200 (Data.map [("message", MapValue.string "Book created successfully"),
            ("book", MapValue.book duneBook)])] := by
  refine ⟨rfl, by decide, by decide, ?_⟩
  obtain ⟨arg, hcalls, _, _, _, _, _, hprice, _, _, hw⟩ :=
    create_book_inserts_converted_fields (Server.ofSpec memQueries sampleText) []
      (bodyRequest "" duneCreate) duneCreate ⟨1965, 8, 1⟩ rfl (by decide) (by decide)
  refine ⟨arg, hcalls, ?_, ?_⟩
  · have h2 : pgtype.Numeric.Scan (fmt.Sprintf2f duneCreate.Price) =
        some ⟨some 1250, -2, false, pgtype.InfinityModifier.Finite, true⟩ := by decide
    rw [h2] at hprice
    exact (Option.some.inj hprice).symm
  · have hc : ((Server.ofSpec memQueries sampleText).handleCreateBook (bodyRequest "" duneCreate)
        (World.init [])).calls = [db.Call.CreateBook (createArg duneCreate ⟨1965, 8, 1⟩)] := by
      decide
    rw [hc] at hcalls
    have harg : createArg duneCreate ⟨1965, 8, 1⟩ = arg := by
      injection hcalls with h1 _
      injection h1
    subst harg
    exact hw duneBook [duneBook] (by decide)

/-- C6: a CreateBook request (decoded body, validation passed) or an UpdateBook request
(well-formed ID, decoded body, validation passed, price present) whose published date is
not a valid calendar date in YYYY-MM-DD format gets exactly one response, 400 with the
message "Invalid date format", and the handler makes no storage call; the price
conversion before it cannot fail. -/
theorem invalid_date_is_bad_request (s : Server σ) (store : σ) :
    (∀ (r : Request CreateBookRequest) (req : CreateBookRequest), r.Body = some req →
      s.validateCreate req = none → time.Parse req.PublishedDate = none →
      (s.handleCreateBook r (World.init store)).w = [errorResponse 400 "Invalid date format"] ∧
      (s.handleCreateBook r (World.init store)).calls = []) ∧
    (∀ (r : Request UpdateBookRequest) (req : UpdateBookRequest) (id : Int) (p : Float64),
      strconv.ParseInt (r.PathValue "id") = some id → r.Body = some req →
      s.validateUpdate req = none → req.Price = some p →
      time.Parse req.PublishedDate = none →
      (s.handleUpdateBook r (World.init store)).w = [errorResponse 400 "Invalid date format"] ∧
      (s.handleUpdateBook r (World.init store)).calls = []) := by
  refine ⟨?_, ?_⟩
  · intro r req hbody hvalid hdate
    simp [Server.handleCreateBook, hbody, hvalid, scan_sprintf2f, hdate, respondError, respond,
      World.init, errorResponse]
  · intro r req id p hid hbody hvalid hprice hdate
    simp [Server.handleUpdateBook, hid, hbody, hvalid, hprice, scan_sprintf2f, hdate,
      respondError, respond, World.init, errorResponse]

/-- C6 at a create body dated 30 February 1965 and an update body for book 1 dated
"01/08/1965". -/
theorem invalid_date_is_bad_request_witness :
    time.Parse "1965-02-30" = none ∧ time.Parse "01/08/1965" = none ∧
    CreateBookRequest.Validate sampleText { duneCreate with PublishedDate := "1965-02-30" } =
      none ∧
    UpdateBookRequest.Validate sampleText { duneUpdate with PublishedDate := "01/08/1965" } =
      none ∧
    ((Server.ofSpec memQueries sampleText).handleCreateBook
      (bodyRequest "" { duneCreate with PublishedDate := "1965-02-30" }) (World.init [])).w =
        [errorResponse 400 "Invalid date format"] ∧
    ((Server.ofSpec memQueries sampleText).handleUpdateBook
      (bodyRequest "1" { duneUpdate with PublishedDate := "01/08/1965" })
      (World.init [duneBook])).calls = [] :=
  have h := invalid_date_is_bad_request (Server.ofSpec memQueries sampleText)
  ⟨by decide, by decide, by decide, by decide,
    ((h []).1 (bodyRequest "" { duneCreate with PublishedDate := "1965-02-30" })
      { duneCreate with PublishedDate := "1965-02-30" } rfl (by decide) (by decide)).1,
    ((h [duneBook]).2 (bodyRequest "1" { duneUpdate with PublishedDate := "01/08/1965" })
      { duneUpdate with PublishedDate := "01/08/1965" } 1 price12_5 (by decide) rfl (by decide)
      rfl (by decide)).2⟩

/-- C7: for UpdateBook and GetAuthorStats, whenever the storage call returns an error,
the no-rows condition included, the client receives status 500 and the first JSON
document of the body is the error body with the raw error text; the status received is
neither 200 nor 404, and neither handler ever writes a 404, on any input. (For
GetAuthorStats the body goes on with a second document, the stats value: the second
`respond` call cannot change the status already sent.) -/
theorem storage_error_is_sent_as_500 (s : Server σ) (store : σ) :
    (∀ (r : Request β) (id : Int) (stats : db.AuthorStats) (e : GoError) (store' : σ),
      strconv.ParseInt (r.PathValue "id") = some id →
      s.queries.GetAuthorStats id store = ((stats, some e), store') →
      (s.handleGetAuthorStats r (World.init store)).sentStatus = some 500 ∧
      (s.handleGetAuthorStats r (World.init store)).sentBody.head? =
        some (Data.errorResponse e.Error) ∧
      (s.handleGetAuthorStats r (World.init store)).sentStatus ≠ some 200 ∧
      (s.handleGetAuthorStats r (World.init store)).sentStatus ≠ some 404) ∧
    (∀ (r : Request UpdateBookRequest) (id : Int) (req : UpdateBookRequest) (p : Float64)
      (date : time.Time) (book : db.Book) (e : GoError) (store' : σ),
      strconv.ParseInt (r.PathValue "id") = some id → r.Body = some req →
      s.validateUpdate req = none → req.Price = some p →
      time.Parse req.PublishedDate = some date →
      s.queries.UpdateBook (updateArg id req p date) store = ((book, some e), store') →
      (s.handleUpdateBook r (World.init store)).sentStatus = some 500 ∧
      (s.handleUpdateBook r (World.init store)).sentBody = [Data.errorResponse e.Error] ∧
      (s.handleUpdateBook r (World.init store)).sentStatus ≠ some 200 ∧
      (s.handleUpdateBook r (World.init store)).sentStatus ≠ some 404) ∧
    (∀ (r : Request β), ∀ x ∈ (s.handleGetAuthorStats r (World.init store)).w,
      x.status ≠ 404) ∧
    (∀ (r : Request UpdateBookRequest), ∀ x ∈ (s.handleUpdateBook r (World.init store)).w,
      x.status ≠ 404) := by
  refine ⟨?_, ?_, fun r => handleGetAuthorStats_never_404 s r store,
    fun r => handleUpdateBook_never_404 s r store⟩
  · intro r id stats e store' hid hq
    simp [Server.handleGetAuthorStats, hid, hq, respondError, respond, World.init,
      World.called, World.sentStatus, World.sentBody, http.bodyAllowedForStatus,
      http.StatusInternalServerError]
  · intro r id req p date book e store' hid hbody hvalid hprice hdate hq
    rw [handleUpdateBook_converted s r _ id req p date hid hbody hvalid hprice hdate]
    simp [World.init, hq, respondError, respond, World.called, World.sentStatus,
      World.sentBody, http.bodyAllowedForStatus, http.StatusInternalServerError]

/-- C7 at author 7 and at the Dune update of book 1, over a storage layer that reports
no rows: the client receives 500 with "no rows in result set". -/
theorem storage_error_is_sent_as_500_witness :
    strconv.ParseInt ((getRequest "7").PathValue "id") = some 7 ∧
    (failingQueries pgx.ErrNoRows).GetAuthorStats 7 () = ((⟨0, 0⟩, some pgx.ErrNoRows), ()) ∧
    ((Server.ofSpec (failingQueries pgx.ErrNoRows) sampleText).handleGetAuthorStats
      (getRequest "7") (World.init ())).sentStatus = some 500 ∧
    ((Server.ofSpec (failingQueries pgx.ErrNoRows) sampleText).handleGetAuthorStats
      (getRequest "7") (World.init ())).sentBody.head? =
        some (Data.errorResponse "no rows in result set") ∧
    strconv.ParseInt ((bodyRequest "1" duneUpdate).PathValue "id") = some 1 ∧
    UpdateBookRequest.Validate sampleText duneUpdate = none ∧
    time.Parse duneUpdate.PublishedDate = some ⟨1965, 8, 1⟩ ∧
    ((Server.ofSpec (failingQueries pgx.ErrNoRows) sampleText).handleUpdateBook
      (bodyRequest "1" duneUpdate) (World.init ())).sentStatus = some 500 ∧
    ((Server.ofSpec (failingQueries pgx.ErrNoRows) sampleText).handleUpdateBook
      (bodyRequest "1" duneUpdate) (World.init ())).sentBody =
        [Data.errorResponse "no rows in result set"] :=
  have h := @storage_error_is_sent_as_500 Unit Unit
    (Server.ofSpec (failingQueries pgx.ErrNoRows) sampleText) ()
  have hs := h.1 (getRequest "7") 7 ⟨0, 0⟩ pgx.ErrNoRows () (by decide) rfl
  have hu := h.2.1 (bodyRequest "1" duneUpdate) 1 duneUpdate price12_5 ⟨1965, 8, 1⟩
    db.Book.zero pgx.ErrNoRows () (by decide) rfl (by decide) rfl (by decide) rfl
  ⟨by decide, rfl, hs.1, hs.2.1, by decide, by decide, by decide, hu.1, hu.2.1⟩

/-- C8 (as amended): for an UpdateBook request with a well-formed ID whose body decodes,
validates and converts, the single storage call is an update keyed by the path ID that
carries the title, the description as optional text, the converted price and the parsed
published date of the body; the ISBN and the author ID are not part of it, so another
such request with the same path ID that agrees on title, description, price and
published date issues the same storage update. -/
theorem update_book_call_fields (s : Server σ) (store : σ) (r : Request UpdateBookRequest)
    (req : UpdateBookRequest) (id : Int) (p : Float64) (date : time.Time)
    (hid : strconv.ParseInt (r.PathValue "id") = some id) (hbody : r.Body = some req)
    (hvalid : s.validateUpdate req = none) (hprice : req.Price = some p)
    (hdate : time.Parse req.PublishedDate = some date) :
    (s.handleUpdateBook r (World.init store)).calls =
      [db.Call.UpdateBook
        { Title := req.Title
          Description := ⟨req.Description, req.Description != ""⟩
          Price := priceNumeric p
          PublishedDate := ⟨date, pgtype.InfinityModifier.Finite, true⟩
          ID := id }] ∧
    pgtype.Numeric.Scan (fmt.Sprintf2f p) = some (priceNumeric p) ∧
    ∀ (r2 : Request UpdateBookRequest) (req2 : UpdateBookRequest),
      r2.PathValue "id" = r.PathValue "id" → r2.Body = some req2 →
      s.validateUpdate req2 = none → req2.Title = req.Title →
      req2.Description = req.Description → req2.Price = req.Price →
      req2.PublishedDate = req.PublishedDate →
      (s.handleUpdateBook r2 (World.init store)).calls =
        (s.handleUpdateBook r (World.init store)).calls := by
  have key : ∀ (r2 : Request UpdateBookRequest) (req2 : UpdateBookRequest),
      strconv.ParseInt (r2.PathValue "id") = some id → r2.Body = some req2 →
      s.validateUpdate req2 = none → req2.Price = some p →
      time.Parse req2.PublishedDate = some date →
      (s.handleUpdateBook r2 (World.init store)).calls =
        [db.Call.UpdateBook (updateArg id req2 p date)] := by
    intro r2 req2 h1 h2 h3 h4 h5
    rw [handleUpdateBook_converted s r2 _ id req2 p date h1 h2 h3 h4 h5]
    cases (s.queries.UpdateBook (updateArg id req2 p date) (World.init store).store).1.2 <;>
      simp [respondError, respond, World.called, World.init]
  refine ⟨key r req hid hbody hvalid hprice hdate, scan_sprintf2f p, ?_⟩
  intro r2 req2 hpath hbody2 hvalid2 ht hd hp hpd
  rw [key r req hid hbody hvalid hprice hdate,
    key r2 req2 (hpath ▸ hid) hbody2 hvalid2 (hp ▸ hprice) (hpd ▸ hdate)]
  simp [updateArg, ht, hd]

/-- C8 (as amended) at the Dune update of book 1. -/
theorem update_book_call_fields_witness :
    strconv.ParseInt ((bodyRequest "1" duneUpdate).PathValue "id") = some 1 ∧
    UpdateBookRequest.Validate sampleText duneUpdate = none ∧
    time.Parse duneUpdate.PublishedDate = some ⟨1965, 8, 1⟩ ∧
    priceNumeric price12_5 = ⟨some 1250, -2, false, pgtype.InfinityModifier.Finite, true⟩ ∧
    ((Server.ofSpec memQueries sampleText).handleUpdateBook (bodyRequest "1" duneUpdate)
      (World.init [duneBook])).calls =
      [db.Call.UpdateBook
        { Title := "Dune"
          Description := ⟨"", false⟩
          Price := priceNumeric price12_5
          PublishedDate := ⟨⟨1965, 8, 1⟩, pgtype.InfinityModifier.Finite, true⟩
          ID := 1 }] :=
  ⟨by decide, by decide, by decide, by decide,
    (update_book_call_fields (Server.ofSpec memQueries sampleText) [duneBook]
      (bodyRequest "1" duneUpdate) duneUpdate 1 price12_5 ⟨1965, 8, 1⟩ (by decide) rfl
      (by decide) rfl (by decide)).1⟩

/-- C8 as stated fails: two valid UpdateBook requests for book 1 that differ only in the
ISBN, and two that differ only in the author ID, issue the same single storage update. -/
theorem update_ignores_isbn_and_author :
    ({ duneUpdate with ISBN := "9780441172719" } : UpdateBookRequest) ≠ duneUpdate ∧
    ({ duneUpdate with AuthorID := 2 } : UpdateBookRequest) ≠ duneUpdate ∧
    ((Server.ofSpec memQueries sampleText).handleUpdateBook
      (bodyRequest "1" { duneUpdate with ISBN := "9780441172719" })
      (World.init [duneBook])).calls =
      ((Server.ofSpec memQueries sampleText).handleUpdateBook (bodyRequest "1" duneUpdate)
        (World.init [duneBook])).calls ∧
    ((Server.ofSpec memQueries sampleText).handleUpdateBook
      (bodyRequest "1" { duneUpdate with AuthorID := 2 }) (World.init [duneBook])).calls =
      ((Server.ofSpec memQueries sampleText).handleUpdateBook (bodyRequest "1" duneUpdate)
        (World.init [duneBook])).calls ∧
    ((Server.ofSpec memQueries sampleText).handleUpdateBook (bodyRequest "1" duneUpdate)
      (World.init [duneBook])).calls.length = 1 := by
  decide

/-- C9 (as amended): for a well-formed ID for which the storage delete succeeds,
DeleteBook makes the one delete call and writes exactly one response, with status 204;
it passes the non-nil string "Book deleted successfully" to `respond`, which therefore
sets the JSON content type and encodes that string as the body. -/
theorem delete_book_success_response (s : Server σ) (store store' : σ) (r : Request β)
    (id : Int) (hid : strconv.ParseInt (r.PathValue "id") = some id)
    (hq : s.queries.DeleteBook id store = (none, store')) :
    (s.handleDeleteBook r (World.init store)).w =
      [⟨204, some "application/json", some (Data.string "Book deleted successfully")⟩] ∧
    (s.handleDeleteBook r (World.init store)).calls = [db.Call.DeleteBook id] := by
  simp [Server.handleDeleteBook, hid, hq, respond, World.init, World.called]

/-- C9 (as amended) at the delete of the stored book 1. -/
theorem delete_book_success_response_witness :
    strconv.ParseInt ((getRequest "1").PathValue "id") = some 1 ∧
    memQueries.DeleteBook 1 [duneBook] = (none, []) ∧
    ((Server.ofSpec memQueries sampleText).handleDeleteBook (getRequest "1")
      (World.init [duneBook])).w =
      [⟨204, some "application/json", some (Data.string "Book deleted successfully")⟩] :=
  ⟨by decide, by decide,
    (delete_book_success_response (Server.ofSpec memQueries sampleText) [duneBook] []
      (getRequest "1") 1 (by decide) (by decide)).1⟩

/-- C9 as stated fails: deleting the stored book 1 succeeds and yields one response with
status 204, but that response has the JSON content type set and a JSON-encoded payload. -/
theorem delete_success_has_json_body :
    memQueries.DeleteBook 1 [duneBook] = (none, []) ∧
    ((Server.ofSpec memQueries sampleText).handleDeleteBook (getRequest "1")
      (World.init [duneBook])).w.length = 1 ∧
    ∃ x ∈ ((Server.ofSpec memQueries sampleText).handleDeleteBook (getRequest "1")
        (World.init [duneBook])).w,
      x.status = 204 ∧ x.contentType = some "application/json" ∧
        x.body = some (Data.string "Book deleted successfully") ∧ x.body ≠ none := by
  decide

/-- C10, on the failing inputs: an UpdateBook request with a well-formed ID whose body
decodes with the price absent and passes validation makes the handler dereference the
nil price: it panics, having written no response and made no storage call. -/
theorem update_absent_price_panics (s : Server σ) (store : σ) (r : Request UpdateBookRequest)
    (req : UpdateBookRequest) (id : Int)
    (hid : strconv.ParseInt (r.PathValue "id") = some id) (hbody : r.Body = some req)
    (hvalid : s.validateUpdate req = none) (hprice : req.Price = none) :
    (s.handleUpdateBook r (World.init store)).panicked = true ∧
    (s.handleUpdateBook r (World.init store)).w = [] ∧
    (s.handleUpdateBook r (World.init store)).calls = [] := by
  simp [Server.handleUpdateBook, hid, hbody, hvalid, hprice, World.init]

/-- C10 at the Dune update of book 1 with the price absent, which passes validation as
section 4.3 defines it. -/
theorem update_absent_price_panics_witness :
    strconv.ParseInt ((bodyRequest "1" { duneUpdate with Price := none }).PathValue "id") =
      some 1 ∧
    UpdateBookRequest.Validate sampleText { duneUpdate with Price := none } = none ∧
    ((Server.ofSpec memQueries sampleText).handleUpdateBook
      (bodyRequest "1" { duneUpdate with Price := none }) (World.init [duneBook])).panicked =
        true ∧
    ((Server.ofSpec memQueries sampleText).handleUpdateBook
      (bodyRequest "1" { duneUpdate with Price := none }) (World.init [duneBook])).w = [] :=
  have h := update_absent_price_panics (Server.ofSpec memQueries sampleText) [duneBook]
    (bodyRequest "1" { duneUpdate with Price := none }) { duneUpdate with Price := none } 1
    (by decide) rfl (by decide) rfl
  ⟨by decide, by decide, h.1, h.2.1⟩

end Claims
